import Mathlib

/-!
Verification of the event-choreography core of the microservices repository
(user-service → order-service → payment-service over Kafka).

The TypeScript source is shallowly embedded: JavaScript runtime values are the
inductive `Json` type (with an explicit `undef` constructor for JavaScript's
`undefined`), JavaScript truthiness and `String(...)` coercion are explicit
functions, and the stateful producer/consumer services are explicit state
passing.  Every definition is translated from the corresponding source
function, noted in its doc comment.
-/

namespace Choreo

/-- A JavaScript runtime value as it occurs on the event-payload paths of the
repository.  `undef` models JavaScript `undefined` (in particular the result
of reading an absent object property); numbers are modelled as integers, which
covers every numeric value occurring on the embedded paths. -/
inductive Json where
  | str : String → Json
  | num : Int → Json
  | bool : Bool → Json
  | null : Json
  | undef : Json
  | obj : List (String × Json) → Json
  | arr : List Json → Json
deriving Repr

/-- Association-list lookup used to model JavaScript property access on plain
objects deserialized from JSON. -/
def lookupField : List (String × Json) → String → Json
  | [], _ => Json.undef
  | (k, v) :: rest, key => if k == key then v else lookupField rest key

/-- JavaScript property access `o.k`: reading a property of a non-object (or
an absent property) yields `undefined`. -/
def Json.get (j : Json) (key : String) : Json :=
  match j with
  | Json.obj fields => lookupField fields key
  | _ => Json.undef

/-- JavaScript truthiness, as used by `if (messagePayload._trace)`,
`value || fallback`, and `if (parentTraceId && parentSpanId)` in the source. -/
def Json.truthy : Json → Bool
  | Json.str s => s ≠ ""
  | Json.num n => n ≠ 0
  | Json.bool b => b
  | Json.null => false
  | Json.undef => false
  | Json.obj _ => true
  | Json.arr _ => true

/-- JavaScript `String(v)` coercion for the values reaching it on the embedded
paths (primitive values; objects stringify to their tag). -/
def jsString : Json → String
  | Json.str s => s
  | Json.num n => toString n
  | Json.bool b => if b then "true" else "false"
  | Json.null => "null"
  | Json.undef => "undefined"
  | Json.obj _ => "[object Object]"
  | Json.arr _ => "[object Array]"

/-- Delete a key from an association list; models `delete messagePayload._trace`. -/
def removeField : List (String × Json) → String → List (String × Json)
  | [], _ => []
  | (k, v) :: rest, key =>
      if k == key then removeField rest key else (k, v) :: removeField rest key

/-- `delete o.k` on a JavaScript object. -/
def Json.delete (j : Json) (key : String) : Json :=
  match j with
  | Json.obj fields => Json.obj (removeField fields key)
  | _ => j

/-- Set a key on an association list, replacing an existing binding in place
or appending a new one; models JavaScript property assignment. -/
def setField : List (String × Json) → String → Json → List (String × Json)
  | [], key, v => [(key, v)]
  | (k, w) :: rest, key, v =>
      if k == key then (k, v) :: rest else (k, w) :: setField rest key v

/-- Object spread plus one extra key, `{ ...data, _trace: t }` in the source;
spreading a non-object contributes no fields. -/
def Json.withField (j : Json) (key : String) (v : Json) : Json :=
  match j with
  | Json.obj fields => Json.obj (setField fields key v)
  | _ => Json.obj [(key, v)]

/-- Headers maps (`Record<string, string>` in the source) are modelled as
association lists of JavaScript values, since the source in fact stores
arbitrary deserialized values in them. -/
abbrev Headers := List (String × Json)

/-- Read a header; absent keys give `undefined`, as in JavaScript. -/
def hget (hs : Headers) (key : String) : Json := lookupField hs key

/-- Write a header (JavaScript assignment into a record). -/
def hset (hs : Headers) (key : String) (v : Json) : Headers := setField hs key v

/-- `parseInt(s, 10)` restricted to the leading-decimal-digit behaviour the
embedded paths exercise; a string with no leading digits parses to `NaN`,
which is modelled as `0` (both are falsy and both coerce to `0` in the
arithmetic the source performs on the result). -/
def parseIntJs (s : String) : Int :=
  let ds := s.toList.takeWhile Char.isDigit
  if ds.isEmpty then 0
  else Int.ofNat (ds.foldl (fun a c => a * 10 + (c.toNat - 48)) 0)

/-- Hexadecimal digit, either case, as accepted by the OpenTelemetry id
validity regexes. -/
def isHexChar (c : Char) : Bool :=
  c.isDigit || ("abcdefABCDEF".toList.contains c)

/-- OpenTelemetry `isValidTraceId` (external collaborator contract): a 32
hex-character string that is not all zeroes.  Non-string values are invalid. -/
def validTraceId : Json → Bool
  | Json.str s =>
      s.length == 32 && s.toList.all isHexChar && s.toList.any (fun c => c ≠ '0')
  | _ => false

/-- OpenTelemetry `isValidSpanId` (external collaborator contract): a 16
hex-character string that is not all zeroes.  Non-string values are invalid. -/
def validSpanId : Json → Bool
  | Json.str s =>
      s.length == 16 && s.toList.all isHexChar && s.toList.any (fun c => c ≠ '0')
  | _ => false

/-- An OpenTelemetry span context as carried by the spans the services
create.  `traceId`/`spanId` are JavaScript values because
`startSpanFromHeaders` builds contexts directly from deserialized header
values. -/
structure SpanContext where
  traceId : Json
  spanId : Json
  traceFlags : Int
deriving Repr

/-- `TracingService.startSpanFromHeaders` (payment-service
`observability/tracing.service.ts`, lines 80–109; the order-service twin is
identical in shape): if truthy `x-trace-id` and `x-span-id` headers exist, a
parent span context is assembled from them with
`parseInt(headers['x-trace-flags'] || '1', 10)` flags and handed to
`tracer.startSpan`; the OpenTelemetry tracer (external collaborator) starts a
child in the same trace when the parent context is valid and a fresh root
otherwise.  `freshTraceId`/`freshSpanId` stand for the tracer's random id
generator.  The function is total: no input raises. -/
def startSpanFromHeaders (hs : Headers) (freshTraceId freshSpanId : String) : SpanContext :=
  let pT := hget hs "x-trace-id"
  let pS := hget hs "x-span-id"
  if pT.truthy && pS.truthy then
    let fv := hget hs "x-trace-flags"
    let flags := parseIntJs (jsString (if fv.truthy then fv else Json.str "1"))
    if validTraceId pT && validSpanId pS then
      { traceId := pT, spanId := Json.str freshSpanId
        traceFlags := if flags % 2 == 1 then 1 else 0 }
    else
      { traceId := Json.str freshTraceId, spanId := Json.str freshSpanId, traceFlags := 1 }
  else
    { traceId := Json.str freshTraceId, spanId := Json.str freshSpanId, traceFlags := 1 }

/-- `TracingService.startSpan` (payment-service tracing service lines 57–64,
called by the order-service producer): starts a span as a child of the active
ambient context when one exists (sampling decision parent-based), and a fresh
root otherwise.  The ambient OpenTelemetry context is passed explicitly. -/
def startSpan (ambient : Option SpanContext) (freshTraceId freshSpanId : String) : SpanContext :=
  match ambient with
  | some p =>
      { traceId := p.traceId, spanId := Json.str freshSpanId
        traceFlags := if p.traceFlags % 2 == 1 then 1 else 0 }
  | none =>
      { traceId := Json.str freshTraceId, spanId := Json.str freshSpanId, traceFlags := 1 }

/-- `TracingService.injectContextFromSpan` (payment-service tracing service
lines 70–77): writes `x-trace-id`, `x-span-id` and
`x-trace-flags = String(spanContext.traceFlags || 1)` into the headers map. -/
def injectContextFromSpan (ctx : SpanContext) (hs : Headers) : Headers :=
  hset (hset (hset hs "x-trace-id" ctx.traceId) "x-span-id" ctx.spanId)
    "x-trace-flags"
    (Json.str (toString (if ctx.traceFlags ≠ 0 then ctx.traceFlags else 1)))

/-- The consumer-side trace extraction (order-service
`confluent-kafka-consumer.service.ts` lines 104–115 and its payment-service
twin): if the payload's `_trace` key is truthy, copy its `traceId`, `spanId`
and `String(flags || '1')` into `x-`-prefixed headers and delete `_trace`
from the payload; otherwise leave both untouched.  Returns the headers map
and the payload handed to business deserialization. -/
def extractTrace (payload : Json) : Headers × Json :=
  let tr := payload.get "_trace"
  if tr.truthy then
    let fv := tr.get "flags"
    ([("x-trace-id", tr.get "traceId"),
      ("x-span-id", tr.get "spanId"),
      ("x-trace-flags", Json.str (jsString (if fv.truthy then fv else Json.str "1")))],
     payload.delete "_trace")
  else
    ([], payload)

/-- The fields of `ConfluentKafkaService` relevant to connection handling:
whether `this.producer` is non-null and the `isConnected` flag (order-service
and payment-service `kafka/confluent-kafka.service.ts`). -/
structure ProducerState where
  hasProducer : Bool
  isConnected : Bool
deriving Repr, DecidableEq

/-- Constructor state: `producer = null`, `isConnected = false`. -/
def initialProducerState : ProducerState :=
  { hasProducer := false, isConnected := false }

/-- The state after a successful connect. -/
def connectedState : ProducerState :=
  { hasProducer := true, isConnected := true }

/-- `ConfluentKafkaService.connect` run to completion in one step (the
awaited handshake resolved), parameterized by whether the broker is
reachable: if already connected with a live producer it returns immediately;
otherwise it allocates a new client (`this.producer = new Producer(...)`) and
either the handshake succeeds (`isConnected = true`) or it fails, in which
case the catch block leaves `isConnected = false` and schedules a retry
timer (the timer itself is outside this state). -/
def connectRun (s : ProducerState) (reachable : Bool) : ProducerState :=
  if s.isConnected && s.hasProducer then s
  else if reachable then { hasProducer := true, isConnected := true }
  else { hasProducer := true, isConnected := false }

/-- Connection-handling state at the granularity of the `await` inside
`connect`: `inflight` counts connect attempts that have allocated a client
and are awaiting the broker handshake. -/
structure ProducerConn where
  hasProducer : Bool
  isConnected : Bool
  inflight : Nat
deriving Repr, DecidableEq

/-- Constructor state of the connection machine. -/
def initialConn : ProducerConn :=
  { hasProducer := false, isConnected := false, inflight := 0 }

/-- The synchronous prefix of `ConfluentKafkaService.connect`, up to its
`await`: if `isConnected && producer` it returns at once; otherwise it
creates a fresh client and starts a handshake, leaving one more attempt in
flight.  There is no in-progress guard in the source, so the guard consulted
is only `isConnected`/`producer`. -/
def connStart (s : ProducerConn) : ProducerConn :=
  if s.isConnected && s.hasProducer then s
  else { hasProducer := true, isConnected := s.isConnected, inflight := s.inflight + 1 }

/-- Resolution of one in-flight handshake: on success the try block sets
`isConnected = true`; on failure the catch block sets `isConnected = false`
and schedules a retry. -/
def connResolve (s : ProducerConn) (ok : Bool) : ProducerConn :=
  if s.inflight == 0 then s
  else if ok then { hasProducer := s.hasProducer, isConnected := true, inflight := s.inflight - 1 }
  else { hasProducer := s.hasProducer, isConnected := false, inflight := s.inflight - 1 }

/-- One event-loop step of the producer's connection handling: a call to
`connect` running to its suspension point, or an in-flight handshake
resolving. -/
inductive ConnStep : ProducerConn → ProducerConn → Prop where
  | start (s : ProducerConn) : ConnStep s (connStart s)
  | resolve (s : ProducerConn) (ok : Bool) : ConnStep s (connResolve s ok)

/-- Reachability of producer connection states from the constructor state. -/
def ConnReachable (s : ProducerConn) : Prop :=
  Relation.ReflTransGen ConnStep initialConn s

/-- A message handed to `producer.produce`: the topic, the object serialized
into the message value by `JSON.stringify`, and the Kafka header list. -/
structure ProducedMsg where
  topic : String
  value : Json
  kafkaHeaders : List (String × String)
deriving Repr

/-- Observable outcome of one `emit` call: the resulting service state, the
messages handed to the broker client, the error thrown (if any), and how
many connect attempts the call performed. -/
structure EmitResult where
  state : ProducerState
  produced : List ProducedMsg
  error : Option String
  connectAttempts : Nat
deriving Repr

/-- The distinguishable error thrown by both `emit` implementations when the
producer is unavailable. -/
def producerUnavailable : String := "Kafka producer not available"

/-- Order-service `ConfluentKafkaService.emit` (lines 71–112): if
`!producer || !isConnected` it awaits one `connect` and throws
`'Kafka producer not available'` if still unavailable; otherwise it starts a
publish span from the ambient context, injects that span's context into the
headers, embeds `{ traceId, spanId, flags }` under `_trace` in the payload by
object spread, and produces the serialized value with no Kafka headers.
The user-service producer serving `user.created` is not under the embedded
sources; per the repository's structure and the spec's wire shape it is this
same tracing producer, so this definition also stands for it. -/
def emitWithTrace (s : ProducerState) (reachable : Bool) (ambient : Option SpanContext)
    (freshTraceId freshSpanId : String) (topic : String) (data : Json)
    (headers : Headers) : EmitResult :=
  let needConnect := !(s.hasProducer && s.isConnected)
  let s1 := if needConnect then connectRun s reachable else s
  let attempts := if needConnect then 1 else 0
  if !(s1.hasProducer && s1.isConnected) then
    { state := s1, produced := [], error := some producerUnavailable
      connectAttempts := attempts }
  else
    let span := startSpan ambient freshTraceId freshSpanId
    let th := injectContextFromSpan span headers
    let msg := data.withField "_trace" (Json.obj
      [("traceId", hget th "x-trace-id"),
       ("spanId", hget th "x-span-id"),
       ("flags", hget th "x-trace-flags")])
    { state := s1
      produced := [{ topic := topic, value := msg, kafkaHeaders := [] }]
      error := none, connectAttempts := attempts }

/-- Payment-service `ConfluentKafkaService.emit` (lines 67–101): the same
availability check, then the headers map is converted to a Kafka header list
with `String(value)` values and the payload is serialized as-is — no
`_trace` key is embedded in the value. -/
def emitPlain (s : ProducerState) (reachable : Bool) (topic : String) (data : Json)
    (headers : Headers) : EmitResult :=
  let needConnect := !(s.hasProducer && s.isConnected)
  let s1 := if needConnect then connectRun s reachable else s
  let attempts := if needConnect then 1 else 0
  if !(s1.hasProducer && s1.isConnected) then
    { state := s1, produced := [], error := some producerUnavailable
      connectAttempts := attempts }
  else
    { state := s1
      produced := [{ topic := topic, value := data
                     kafkaHeaders := headers.map (fun kv => (kv.1, jsString kv.2)) }]
      error := none, connectAttempts := attempts }

/-- A message pulled from the broker, identified by its offset; `parsed` is
the result of `JSON.parse(message.value.toString())`, with `none` modelling a
body on which `JSON.parse` throws. -/
structure RawMessage where
  id : Nat
  parsed : Option Json
deriving Repr

/-- Observable actions of the consumer loop and of the asynchronously
dispatched handlers (both consumer services'
`ConfluentKafkaConsumerService.consumeMessages`). -/
inductive ConsumerAction where
  | logParseError : Nat → ConsumerAction
  | dispatch : Nat → Json → Headers → ConsumerAction
  | commit : Nat → ConsumerAction
  | handlerDone : Nat → ConsumerAction
  | logHandlerError : Nat → ConsumerAction
deriving Repr

/-- The body of the per-message `for` loop in `consumeMessages` (lines
101–137 of both consumer services): parse the body — on a parse exception the
catch block only logs, reaching neither dispatch nor commit — otherwise
extract the trace headers, hand the message off to the handler without
awaiting it (`.catch` is attached for asynchronous errors), and commit the
message immediately after the hand-off. -/
def processMessage (m : RawMessage) : List ConsumerAction :=
  match m.parsed with
  | none => [ConsumerAction.logParseError m.id]
  | some payload =>
      let he := extractTrace payload
      [ConsumerAction.dispatch m.id he.2 he.1, ConsumerAction.commit m.id]

/-- The synchronous part of one batch iteration of `consumeMessages`: the
`for` loop over the pulled messages, which runs to completion on the event
loop before any dispatched handler settles. -/
def processBatch (msgs : List RawMessage) : List ConsumerAction :=
  msgs.flatMap processMessage

/-- The asynchronous settlements of the handlers dispatched for one batch:
each parsed message's handler either completes or rejects, and a rejection is
caught by the `.catch` attached at dispatch and logged — it never propagates
into the loop.  `handlerOk` is the outcome of the handler for a given message
id and payload. -/
def settleHandlers (handlerOk : Nat → Json → Bool) (msgs : List RawMessage) :
    List ConsumerAction :=
  msgs.flatMap (fun m =>
    match m.parsed with
    | none => []
    | some payload =>
        let he := extractTrace payload
        if handlerOk m.id he.2 then [ConsumerAction.handlerDone m.id]
        else [ConsumerAction.logHandlerError m.id])

/-- One batch linearized by the JavaScript event loop: every synchronous loop
action precedes every handler settlement. -/
def runBatch (handlerOk : Nat → Json → Bool) (msgs : List RawMessage) :
    List ConsumerAction :=
  processBatch msgs ++ settleHandlers handlerOk msgs

/-- The ids the loop dispatched to a handler, in order. -/
def dispatchIds (l : List ConsumerAction) : List Nat :=
  l.flatMap (fun a =>
    match a with
    | ConsumerAction.dispatch i _ _ => [i]
    | _ => [])

/-- The ids the loop committed, in order. -/
def commitIds (l : List ConsumerAction) : List Nat :=
  l.flatMap (fun a =>
    match a with
    | ConsumerAction.commit i => [i]
    | _ => [])

/-- The ids of the messages of a batch whose bodies deserialize. -/
def okIds (msgs : List RawMessage) : List Nat :=
  msgs.flatMap (fun m =>
    match m.parsed with
    | none => []
    | some _ => [m.id])

/-- An order line item (`CreateOrderDto.items` element). -/
structure OrderItem where
  productId : String
  quantity : Int
  price : Int
deriving Repr, DecidableEq

/-- `OrdersService.create`'s total:
`items.reduce((sum, item) => sum + item.price * item.quantity, 0)`. -/
def orderTotalAmount (items : List OrderItem) : Int :=
  items.foldl (fun sum it => sum + it.price * it.quantity) 0

/-- The welcome order built by `OrdersService.createOrderForUser`: one item,
`productId 'welcome-product'`, quantity 1, price 0. -/
def welcomeItems : List OrderItem :=
  [{ productId := "welcome-product", quantity := 1, price := 0 }]

/-- JSON form of the items array as serialized into the event. -/
def itemsJson (items : List OrderItem) : Json :=
  Json.arr (items.map (fun it => Json.obj
    [("productId", Json.str it.productId),
     ("quantity", Json.num it.quantity),
     ("price", Json.num it.price)]))

/-- The `OrderCreatedEvent` object built by `OrdersService.create` (lines
46–53) from the saved order: the ORM `save` returns the entity with the same
`userId`, `items` and `totalAmount` plus generated `id`/`createdAt`, and
`parseFloat(x.toString())` is the identity on the numeric total. -/
def orderCreatedEvent (orderId : String) (userId : Json) (items : List OrderItem)
    (createdAt : String) : Json :=
  Json.obj
    [("orderId", Json.str orderId),
     ("userId", userId),
     ("items", itemsJson items),
     ("totalAmount", Json.num (orderTotalAmount items)),
     ("createdAt", Json.str createdAt)]

/-- `OrdersService.create` (lines 33–72): computes the total, persists the
order, builds the event and emits it on `order.created` through the tracing
producer with `{ requestId, traceId, spanId }` headers freshly drawn for
logging (`uuidv4()`).  The ambient span context at the emit call is passed
explicitly (design note: ambient tracing context as explicit parameter). -/
def ordersCreate (s : ProducerState) (reachable : Bool) (ambient : Option SpanContext)
    (freshTraceId freshSpanId : String) (orderId : String) (userId : Json)
    (items : List OrderItem) (createdAt : String)
    (logHeaders : Headers) : EmitResult :=
  emitWithTrace s reachable ambient freshTraceId freshSpanId "order.created"
    (orderCreatedEvent orderId userId items createdAt) logHeaders

/-- `OrdersService.createOrderForUser` (lines 104–130): reads
`headers?.traceId` (falling back to a fresh uuid) for logging only, builds
the welcome order and delegates to `create`. -/
def createOrderForUser (s : ProducerState) (reachable : Bool)
    (ambient : Option SpanContext) (freshTraceId freshSpanId : String)
    (orderId : String) (userId : Json) (createdAt : String)
    (headers : Headers) : EmitResult :=
  ordersCreate s reachable ambient freshTraceId freshSpanId orderId userId
    welcomeItems createdAt headers

/-- Fresh identifiers drawn (`uuidv4()`, `Math.random()`, `new Date()`)
during one `PaymentsService.processPayment` run, passed explicitly. -/
structure PaymentEnv where
  freshTraceId : String
  freshSpanId : String
  freshRequestId : String
  paymentId : String
  paymentSucceeds : Bool
  completedAt : String
deriving Repr

/-- `PaymentsService.processPayment` (payment-service
`payments/payments.service.ts` lines 14–75): reads `headers?.traceId` — note
the key, not `x-trace-id` — falling back to a fresh uuid, draws a fresh span
id, classifies the simulated payment (`Math.random() > 0.1`), builds the
`PaymentCompletedEvent` and emits it on `payment.completed` through the
payment producer with `{ requestId, traceId, spanId }` headers. -/
def processPayment (env : PaymentEnv) (s : ProducerState) (reachable : Bool)
    (orderId userId amount : Json) (headers : Headers) : EmitResult :=
  let t := hget headers "traceId"
  let traceId := if t.truthy then t else Json.str env.freshTraceId
  let r := hget headers "requestId"
  let requestId := if r.truthy then r else Json.str env.freshRequestId
  let status := if env.paymentSucceeds then "completed" else "failed"
  let event := Json.obj
    [("paymentId", Json.str env.paymentId),
     ("orderId", orderId),
     ("userId", userId),
     ("amount", amount),
     ("status", Json.str status),
     ("completedAt", Json.str env.completedAt)]
  emitPlain s reachable "payment.completed" event
    [("requestId", requestId), ("traceId", traceId),
     ("spanId", Json.str env.freshSpanId)]

/-- The payment-service consumer's reaction to one parsed `order.created`
payload (`ConfluentKafkaConsumerService.consumeMessages` trace extraction
plus `handleOrderCreated`, part of the embedded sources): extract the trace
headers, start the consumer span from them (which continues the inbound
trace inside the tracer), and run `processPayment` with the extracted
headers.  Returns the emit outcome together with the consumer span. -/
def paymentHop (env : PaymentEnv) (s : ProducerState) (reachable : Bool)
    (payload : Json) (freshConsumerTraceId freshConsumerSpanId : String) :
    EmitResult × SpanContext :=
  let he := extractTrace payload
  let span := startSpanFromHeaders he.1 freshConsumerTraceId freshConsumerSpanId
  (processPayment env s reachable (he.2.get "orderId") (he.2.get "userId")
      (he.2.get "totalAmount") he.1,
   span)

/-- Fresh identifiers drawn during the order-service consumer's handling of
one `user.created` message. -/
structure OrderHopEnv where
  freshConsumerTraceId : String
  freshConsumerSpanId : String
  freshPublishTraceId : String
  freshPublishSpanId : String
  freshLogTraceId : String
  freshLogSpanId : String
  freshRequestId : String
  orderId : String
  createdAt : String
deriving Repr

/-- The order-service consumer's reaction to one parsed `user.created`
payload (`ConfluentKafkaConsumerService.consumeMessages` trace extraction
plus `handleUserCreated`, lines 148–200, composed with
`OrdersService.createOrderForUser`): extract the trace headers, start the
consumer span from them, and — with that span as the ambient context
(`context.with(trace.setSpan(...))`) — create the welcome order, which emits
`order.created` through the tracing producer. -/
def orderHop (env : OrderHopEnv) (s : ProducerState) (reachable : Bool)
    (payload : Json) : EmitResult × SpanContext :=
  let he := extractTrace payload
  let span := startSpanFromHeaders he.1 env.freshConsumerTraceId env.freshConsumerSpanId
  (createOrderForUser s reachable (some span) env.freshPublishTraceId
      env.freshPublishSpanId env.orderId (he.2.get "userId") env.createdAt
      [("requestId", Json.str env.freshRequestId),
       ("traceId", Json.str env.freshLogTraceId),
       ("spanId", Json.str env.freshLogSpanId)],
   span)

/-- The trace-context encoder, as the claims' round-trip law reads it: the
composition of `injectContextFromSpan` on a span context carrying the triple
with the `_trace` object construction in the order-service producer's
`emit`. -/
def encodeTrace (traceId spanId : String) (flags : Int) : Json :=
  let th := injectContextFromSpan
    { traceId := Json.str traceId, spanId := Json.str spanId, traceFlags := flags } []
  Json.obj
    [("traceId", hget th "x-trace-id"),
     ("spanId", hget th "x-span-id"),
     ("flags", hget th "x-trace-flags")]

/-- The trace-context decoder, as the claims' round-trip law reads it: the
consumer-side extraction composed with the found-guard and flags parse of
`startSpanFromHeaders` (`if (parentTraceId && parentSpanId)`,
`parseInt(headers['x-trace-flags'] || '1', 10)`); `none` is the "not found"
outcome that starts a fresh root trace. -/
def decodeTrace (payload : Json) : Option (String × String × Int) :=
  let he := extractTrace payload
  let pT := hget he.1 "x-trace-id"
  let pS := hget he.1 "x-span-id"
  if pT.truthy && pS.truthy then
    let fv := hget he.1 "x-trace-flags"
    some (jsString pT, jsString pS,
      parseIntJs (jsString (if fv.truthy then fv else Json.str "1")))
  else none

/-- Whether a JavaScript value is a string. -/
def Json.isStr : Json → Bool
  | Json.str _ => true
  | _ => false

/-- Look up a Kafka header value by key. -/
def kafkaHeader (hs : List (String × String)) (key : String) : Option String :=
  (hs.find? (fun kv => kv.1 == key)).map (fun kv => kv.2)

theorem lookup_setField_self (fs : List (String × Json)) (k : String) (v : Json) :
    lookupField (setField fs k v) k = v := by
  induction fs with
  | nil => simp [setField, lookupField]
  | cons kv rest ih =>
      by_cases h : kv.1 = k
      · simp [setField, lookupField, h]
      · simp [setField, lookupField, h, ih]

theorem lookup_setField_ne (fs : List (String × Json)) (k k' : String) (v : Json)
    (h : k' ≠ k) : lookupField (setField fs k v) k' = lookupField fs k' := by
  have hkk : k ≠ k' := fun hh => h hh.symm
  induction fs with
  | nil => simp [setField, lookupField, hkk]
  | cons kv rest ih =>
      by_cases hk : kv.1 = k
      · simp [setField, lookupField, hk, hkk]
      · by_cases hk' : kv.1 = k'
        · simp [setField, lookupField, hk, hk', h]
        · simp [setField, lookupField, hk, hk', ih]

theorem get_withField_self (j : Json) (k : String) (v : Json) :
    (j.withField k v).get k = v := by
  cases j <;> simp [Json.withField, Json.get, lookup_setField_self, lookupField]

theorem get_withField_ne (fs : List (String × Json)) (k k' : String) (v : Json)
    (h : k' ≠ k) :
    ((Json.obj fs).withField k v).get k' = (Json.obj fs).get k' := by
  simp [Json.withField, Json.get, lookup_setField_ne _ _ _ _ h]

theorem validTraceId_truthy (j : Json) (h : validTraceId j = true) :
    j.truthy = true := by
  cases j with
  | str s =>
      simp only [validTraceId, Bool.and_eq_true, beq_iff_eq] at h
      simp only [Json.truthy, ne_eq, decide_eq_true_eq]
      intro hs
      rw [hs] at h
      simp at h
  | num n => simp [validTraceId] at h
  | bool b => simp [validTraceId] at h
  | null => simp [validTraceId] at h
  | undef => simp [validTraceId] at h
  | obj fs => simp [validTraceId] at h
  | arr es => simp [validTraceId] at h

theorem validSpanId_truthy (j : Json) (h : validSpanId j = true) :
    j.truthy = true := by
  cases j with
  | str s =>
      simp only [validSpanId, Bool.and_eq_true, beq_iff_eq] at h
      simp only [Json.truthy, ne_eq, decide_eq_true_eq]
      intro hs
      rw [hs] at h
      simp at h
  | num n => simp [validSpanId] at h
  | bool b => simp [validSpanId] at h
  | null => simp [validSpanId] at h
  | undef => simp [validSpanId] at h
  | obj fs => simp [validSpanId] at h
  | arr es => simp [validSpanId] at h

theorem foldl_add_eq_sum (f : OrderItem → Int) (l : List OrderItem) (a : Int) :
    l.foldl (fun sum it => sum + f it) a = a + (l.map f).sum := by
  induction l generalizing a with
  | nil => simp
  | cons it rest ih => simp [ih, add_assoc]

theorem orderTotalAmount_eq_sum (items : List OrderItem) :
    orderTotalAmount items = (items.map (fun it => it.price * it.quantity)).sum := by
  simpa using foldl_add_eq_sum (fun it => it.price * it.quantity) items 0

theorem processBatch_append (l1 l2 : List RawMessage) :
    processBatch (l1 ++ l2) = processBatch l1 ++ processBatch l2 := by
  simp [processBatch]

theorem handlerDone_not_in_processBatch (msgs : List RawMessage) (i : Nat) :
    ConsumerAction.handlerDone i ∉ processBatch msgs := by
  induction msgs with
  | nil => simp [processBatch]
  | cons m rest ih =>
      simp only [processBatch, List.flatMap_cons, List.mem_append]
      rintro (h | h)
      · cases hm : m.parsed <;> simp [processMessage, hm] at h
      · exact ih (by simpa [processBatch] using h)

theorem logHandlerError_not_in_processBatch (msgs : List RawMessage) (i : Nat) :
    ConsumerAction.logHandlerError i ∉ processBatch msgs := by
  induction msgs with
  | nil => simp [processBatch]
  | cons m rest ih =>
      simp only [processBatch, List.flatMap_cons, List.mem_append]
      rintro (h | h)
      · cases hm : m.parsed <;> simp [processMessage, hm] at h
      · exact ih (by simpa [processBatch] using h)

theorem dispatchIds_append (l1 l2 : List ConsumerAction) :
    dispatchIds (l1 ++ l2) = dispatchIds l1 ++ dispatchIds l2 := by
  simp [dispatchIds]

theorem dispatchIds_processBatch (msgs : List RawMessage) :
    dispatchIds (processBatch msgs) = okIds msgs := by
  induction msgs with
  | nil => simp [processBatch, dispatchIds, okIds]
  | cons m rest ih =>
      cases hm : m.parsed <;>
        simp [processBatch, dispatchIds, okIds, processMessage, hm, List.flatMap_cons] at ih ⊢ <;>
        simpa [processBatch, dispatchIds, okIds] using ih

theorem dispatchIds_settleHandlers (h : Nat → Json → Bool) (msgs : List RawMessage) :
    dispatchIds (settleHandlers h msgs) = [] := by
  induction msgs with
  | nil => simp [settleHandlers, dispatchIds]
  | cons m rest ih =>
      cases hm : m.parsed with
      | none =>
          simp only [settleHandlers, List.flatMap_cons, hm]
          simpa [settleHandlers, dispatchIds] using ih
      | some payload =>
          simp only [settleHandlers, List.flatMap_cons, hm]
          by_cases hh : h m.id (extractTrace payload).2 <;>
            simp only [hh, if_pos, if_neg, Bool.false_eq_true, not_false_eq_true] <;>
            simp [dispatchIds] <;> simpa [settleHandlers, dispatchIds] using ih

/-- C3 counterexample: the claim states that a message whose body fails JSON
deserialization is still acknowledged (committed).  In the code the
`commitMessage` call sits after the parse inside the `try` block, so a parse
exception jumps to the catch, which only logs: the batch containing exactly
one malformed message produces a parse-error log and no commit at all. -/
theorem parse_error_not_committed_counterexample :
    processBatch [{ id := 0, parsed := none }] = [ConsumerAction.logParseError 0] ∧
    commitIds (processBatch [{ id := 0, parsed := none }]) = [] :=
  ⟨rfl, rfl⟩

/-- C3 (amended): for every pulled message whose body fails JSON
deserialization, the consumer loop logs the error and moves on without
committing that message's position — the surrounding messages of the batch
are processed exactly as they would be without it, so the malformed message
is skipped within the running session rather than retried, but its offset is
not individually acknowledged. -/
theorem parse_error_logged_and_skipped (l1 l2 : List RawMessage) (m : RawMessage)
    (hm : m.parsed = none) :
    processBatch (l1 ++ m :: l2) =
      processBatch l1 ++ [ConsumerAction.logParseError m.id] ++ processBatch l2 := by
  simp [processBatch, processMessage, hm]

theorem parse_error_logged_and_skipped_witness :
    processBatch ([{ id := 0, parsed := some (Json.obj []) }] ++
        { id := 1, parsed := none } :: [{ id := 2, parsed := some (Json.obj []) }]) =
      processBatch [{ id := 0, parsed := some (Json.obj []) }] ++
        [ConsumerAction.logParseError 1] ++
        processBatch [{ id := 2, parsed := some (Json.obj []) }] :=
  parse_error_logged_and_skipped _ _ _ rfl

/-- C4 counterexample: the claim states that at every reachable producer
state at most one connect attempt is in flight.  `connect` has no
in-progress guard — it only returns early once `isConnected` is true — so
from the initial state one call leaves one attempt pending (a reachable
state), and a reentrant call in that state allocates a second client and
starts a second, parallel handshake. -/
theorem reentrant_connect_spawns_parallel_attempt :
    ConnReachable (connStart initialConn) ∧
    (connStart initialConn).inflight = 1 ∧
    (connStart (connStart initialConn)).inflight = 2 :=
  ⟨Relation.ReflTransGen.single (ConnStep.start _), rfl, rfl⟩

/-- C4 (amended): reentrant calls to `connect` are suppressed only once a
connection has been established — in a state with `isConnected` set and a
live producer, `connect` returns immediately and spawns no new attempt; a
reentrant call made while an attempt is merely pending does start a parallel
attempt. -/
theorem connect_idempotent_once_connected (s : ProducerConn)
    (h1 : s.isConnected = true) (h2 : s.hasProducer = true) :
    connStart s = s := by
  simp [connStart, h1, h2]

theorem connect_idempotent_once_connected_witness :
    connStart { hasProducer := true, isConnected := true, inflight := 0 } =
      { hasProducer := true, isConnected := true, inflight := 0 } :=
  connect_idempotent_once_connected _ rfl rfl

/-- C6: for every consumed message that deserializes successfully, the loop
emits the dispatch to the handler immediately followed by the commit of that
message, and at the moment of the commit no handler completion or failure
has yet been observed — all handler settlements come after the loop's
synchronous actions, because the dispatch is not awaited. -/
theorem commit_follows_dispatch_before_settlement (h : Nat → Json → Bool)
    (msgs : List RawMessage) (m : RawMessage) (hm : m ∈ msgs) (payload : Json)
    (hp : m.parsed = some payload) :
    ∃ pre post, runBatch h msgs =
        pre ++ ConsumerAction.dispatch m.id (extractTrace payload).2 (extractTrace payload).1 ::
          ConsumerAction.commit m.id :: post ∧
      (∀ i, ConsumerAction.handlerDone i ∉ pre) ∧
      (∀ i, ConsumerAction.logHandlerError i ∉ pre) := by
  obtain ⟨l1, l2, rfl⟩ := List.append_of_mem hm
  refine ⟨processBatch l1, processBatch l2 ++ settleHandlers h (l1 ++ m :: l2), ?_, ?_, ?_⟩
  · simp [runBatch, processBatch, processMessage, hp]
  · intro i
    exact handlerDone_not_in_processBatch l1 i
  · intro i
    exact logHandlerError_not_in_processBatch l1 i

theorem commit_follows_dispatch_before_settlement_witness :
    ∃ pre post, runBatch (fun _ _ => true) [{ id := 5, parsed := some (Json.obj []) }] =
        pre ++ ConsumerAction.dispatch 5 (extractTrace (Json.obj [])).2
            (extractTrace (Json.obj [])).1 ::
          ConsumerAction.commit 5 :: post ∧
      (∀ i, ConsumerAction.handlerDone i ∉ pre) ∧
      (∀ i, ConsumerAction.logHandlerError i ∉ pre) :=
  commit_follows_dispatch_before_settlement (fun _ _ => true) _ _ (List.Mem.head _)
    (Json.obj []) rfl

/-- C7: handler-failure isolation.  The ids the loop dispatches equal the
ids of all successfully parsed messages of the batch — for every handler
outcome function, so a rejection at message k changes nothing about the
dispatch of messages k+1..N — and a rejected handler invocation surfaces
only as a logged error action, never as a termination of the loop. -/
theorem handler_failure_isolation (h : Nat → Json → Bool) (msgs : List RawMessage)
    (m : RawMessage) (payload : Json) (hm : m ∈ msgs) (hp : m.parsed = some payload)
    (hfail : h m.id (extractTrace payload).2 = false) :
    dispatchIds (runBatch h msgs) = okIds msgs ∧
    ConsumerAction.logHandlerError m.id ∈ runBatch h msgs := by
  constructor
  · simp [runBatch, dispatchIds_append, dispatchIds_processBatch, dispatchIds_settleHandlers]
  · obtain ⟨l1, l2, rfl⟩ := List.append_of_mem hm
    simp [runBatch, settleHandlers, hp, hfail]

theorem handler_failure_isolation_witness :
    dispatchIds (runBatch (fun i _ => decide (i ≠ 0))
        [{ id := 0, parsed := some (Json.obj []) }, { id := 1, parsed := some (Json.obj []) }]) =
      okIds [{ id := 0, parsed := some (Json.obj []) },
             { id := 1, parsed := some (Json.obj []) }] ∧
    ConsumerAction.logHandlerError 0 ∈ runBatch (fun i _ => decide (i ≠ 0))
        [{ id := 0, parsed := some (Json.obj []) }, { id := 1, parsed := some (Json.obj []) }] :=
  handler_failure_isolation (fun i _ => decide (i ≠ 0)) _ _ (Json.obj [])
    (List.Mem.head _) rfl rfl

/-- C8: `emit` on a producer that has never connected successfully — with
the broker unreachable — performs exactly one synchronous connect attempt,
throws the distinguishable `'Kafka producer not available'` error, hands
nothing to the broker client, and leaves the service unconnected (the failed
attempt retains the freshly allocated, unconnected client object).  This
holds for both producer implementations. -/
theorem emit_unavailable_no_publish (topic : String) (data : Json) (hs : Headers)
    (ambient : Option SpanContext) (ft fs : String) :
    emitPlain initialProducerState false topic data hs =
      { state := { hasProducer := true, isConnected := false }, produced := []
        error := some producerUnavailable, connectAttempts := 1 } ∧
    emitWithTrace initialProducerState false ambient ft fs topic data hs =
      { state := { hasProducer := true, isConnected := false }, produced := []
        error := some producerUnavailable, connectAttempts := 1 } :=
  ⟨rfl, rfl⟩

/-- A well-formed 32-hex-character trace id, used in concrete instances. -/
def sampleTraceId : String := "aaaaaaaaaaaaaaaaaaaaaaaaaaaaaaab"

/-- A well-formed 16-hex-character span id, used in concrete instances. -/
def sampleSpanId : String := "bbbbbbbbbbbbbbbb"

/-- C5 counterexample: the claim's round-trip law is asserted to include the
sampling-flag value 0, but the encoder writes
`String(spanContext.traceFlags || 1)`, so flags 0 is published as `"1"` and
decodes to 1, not 0. -/
theorem roundtrip_flags_zero_counterexample :
    decodeTrace (Json.obj [("_trace", encodeTrace sampleTraceId sampleSpanId 0)]) =
      some (sampleTraceId, sampleSpanId, 1) ∧ (1 : Int) ≠ 0 :=
  ⟨rfl, by decide⟩

/-- Decoding a payload whose `_trace` object holds truthy `traceId`,
`spanId` and `flags` values reports the context found, with the id strings
and parsed flags. -/
theorem decodeTrace_embed (t s : Json) (f : String) (hts : t.truthy = true)
    (hss : s.truthy = true) (hf : f ≠ "") :
    decodeTrace (Json.obj [("_trace",
        Json.obj [("traceId", t), ("spanId", s), ("flags", Json.str f)])]) =
      some (jsString t, jsString s, parseIntJs f) := by
  have hft : (Json.str f).truthy = true := by simp [Json.truthy, hf]
  unfold decodeTrace extractTrace
  simp [Json.get, lookupField, hget, hts, hss, hft, jsString, beq_iff_eq]

/-- C5 (amended): decoding the encoded embeddable reproduces the triple
exactly for every triple with nonempty ids and the sampled flag value 1; a
triple with flags 0 is encoded with flags `"1"` and decodes with flags 1. -/
theorem roundtrip_sampled (t s : String) (ht : t ≠ "") (hs : s ≠ "") :
    decodeTrace (Json.obj [("_trace", encodeTrace t s 1)]) = some (t, s, 1) := by
  show decodeTrace (Json.obj [("_trace",
      Json.obj [("traceId", Json.str t), ("spanId", Json.str s), ("flags", Json.str "1")])]) =
    some (t, s, 1)
  rw [decodeTrace_embed (Json.str t) (Json.str s) "1"
      (by simp [Json.truthy, ht]) (by simp [Json.truthy, hs]) (by decide)]
  rfl

theorem roundtrip_sampled_witness :
    decodeTrace (Json.obj [("_trace", encodeTrace sampleTraceId sampleSpanId 1)]) =
      some (sampleTraceId, sampleSpanId, 1) :=
  roundtrip_sampled sampleTraceId sampleSpanId (by decide) (by decide)

/-- If the extracted `x-trace-id` or `x-span-id` header value is not a
string, `startSpanFromHeaders` starts a fresh root span: either the truthy
guard rejects the value, or the OpenTelemetry validity check does. -/
theorem startSpanFromHeaders_root (hs : Headers) (frT frS : String)
    (h : (hget hs "x-trace-id").isStr = false ∨ (hget hs "x-span-id").isStr = false) :
    startSpanFromHeaders hs frT frS =
      { traceId := Json.str frT, spanId := Json.str frS, traceFlags := 1 } := by
  unfold startSpanFromHeaders
  rcases h with h | h
  · cases hT : hget hs "x-trace-id" <;>
      simp_all [Json.isStr, Json.truthy, validTraceId]
  · cases hS : hget hs "x-span-id" <;>
      simp_all [Json.isStr, Json.truthy, validSpanId]

/-- C9 counterexample: the claim states that a payload whose `_trace` key is
present but malformed (a missing field) is reported "not found", starting a
fresh root trace.  A `_trace` with valid ids but no `flags` field is
malformed in that sense, yet the code defaults the missing flags to `'1'`,
reports the context as found, and continues the inbound trace instead of
starting a fresh root. -/
theorem malformed_trace_missing_flags_counterexample :
    decodeTrace (Json.obj [("_trace",
        Json.obj [("traceId", Json.str sampleTraceId), ("spanId", Json.str sampleSpanId)])]) =
      some (sampleTraceId, sampleSpanId, 1) ∧
    (startSpanFromHeaders
        (extractTrace (Json.obj [("_trace",
          Json.obj [("traceId", Json.str sampleTraceId),
                    ("spanId", Json.str sampleSpanId)])])).1
        "cccccccccccccccccccccccccccccccc" "cccccccccccccccc").traceId =
      Json.str sampleTraceId ∧
    sampleTraceId ≠ "cccccccccccccccccccccccccccccccc" :=
  ⟨rfl, rfl, by decide⟩

/-- C9 (amended): decode is a total function — no payload makes it raise —
and whenever the `_trace` key is absent or its `traceId` or `spanId` field
is missing or not a string, a fresh root trace is started; a missing or
malformed `flags` field alone, however, is defaulted to `'1'` and does not
degrade the context to "not found". -/
theorem decode_degrades_to_root (payload : Json) (frT frS : String)
    (hmal : ((payload.get "_trace").get "traceId").isStr = false ∨
            ((payload.get "_trace").get "spanId").isStr = false) :
    startSpanFromHeaders (extractTrace payload).1 frT frS =
      { traceId := Json.str frT, spanId := Json.str frS, traceFlags := 1 } := by
  apply startSpanFromHeaders_root
  unfold extractTrace
  by_cases htr : (payload.get "_trace").truthy
  · simpa [htr, hget, lookupField] using hmal
  · simp [htr, hget, lookupField, Json.isStr]

theorem decode_degrades_to_root_witness :
    startSpanFromHeaders
        (extractTrace (Json.obj [("_trace",
          Json.obj [("traceId", Json.num 7), ("spanId", Json.str sampleSpanId)])])).1
        "dddddddddddddddddddddddddddddddd" "dddddddddddddddd" =
      { traceId := Json.str "dddddddddddddddddddddddddddddddd"
        spanId := Json.str "dddddddddddddddd", traceFlags := 1 } :=
  decode_degrades_to_root _ _ _ (Or.inl rfl)

theorem inject_traceId (ctx : SpanContext) (hs : Headers) :
    hget (injectContextFromSpan ctx hs) "x-trace-id" = ctx.traceId := by
  unfold injectContextFromSpan hget hset
  rw [lookup_setField_ne _ _ _ _ (by decide), lookup_setField_ne _ _ _ _ (by decide),
      lookup_setField_self]

theorem inject_spanId (ctx : SpanContext) (hs : Headers) :
    hget (injectContextFromSpan ctx hs) "x-span-id" = ctx.spanId := by
  unfold injectContextFromSpan hget hset
  rw [lookup_setField_ne _ _ _ _ (by decide), lookup_setField_self]

theorem inject_flags (ctx : SpanContext) (hs : Headers) :
    hget (injectContextFromSpan ctx hs) "x-trace-flags" =
      Json.str (toString (if ctx.traceFlags ≠ 0 then ctx.traceFlags else 1)) := by
  unfold injectContextFromSpan hget hset
  rw [lookup_setField_self]

/-- C2 counterexample: the claim states that every `emit` wire payload —
`payment.completed` in particular — carries the reserved `_trace` key.  The
payment-service producer serializes its event object unchanged and passes
the trace information as Kafka transport headers, so a concrete
`processPayment` run emits a `payment.completed` value with no `_trace`
key. -/
theorem payment_payload_lacks_trace_counterexample :
    ((processPayment
        { freshTraceId := "ft-uuid", freshSpanId := "fs-uuid", freshRequestId := "fr-uuid"
          paymentId := "pay-1", paymentSucceeds := true
          completedAt := "2024-01-03T00:00:00.000Z" }
        connectedState true (Json.str "o1") (Json.str "u1") (Json.num 100)
        [("x-trace-id", Json.str sampleTraceId), ("x-span-id", Json.str sampleSpanId),
         ("x-trace-flags", Json.str "1")]).produced.map
      (fun m => (m.topic, m.value.get "_trace"))) =
    [("payment.completed", Json.undef)] :=
  rfl

/-- C2 (amended): the tracing producer used for `user.created` and
`order.created` embeds under `_trace` exactly the publish span's trace id,
span id and stringified flags alongside the business payload, but the
payment-service producer's `emit` serializes the `payment.completed` payload
without any `_trace` key, carrying the trace information only as Kafka
message headers. -/
theorem wire_payload_trace_embedding (ambient : Option SpanContext) (ft fs topic : String)
    (data : Json) (hs : Headers) (topic2 : String) (data2 : Json) (hs2 : Headers) :
    ((emitWithTrace connectedState true ambient ft fs topic data hs).produced.map
        (fun m => m.value.get "_trace")) =
      [Json.obj
        [("traceId", (startSpan ambient ft fs).traceId),
         ("spanId", (startSpan ambient ft fs).spanId),
         ("flags", Json.str (toString (if (startSpan ambient ft fs).traceFlags ≠ 0
             then (startSpan ambient ft fs).traceFlags else 1)))]] ∧
    ((emitPlain connectedState true topic2 data2 hs2).produced.map (fun m => m.value)) =
      [data2] ∧
    ((emitPlain connectedState true topic2 data2 hs2).produced.map (fun m => m.kafkaHeaders)) =
      [hs2.map (fun kv => (kv.1, jsString kv.2))] := by
  refine ⟨?_, rfl, rfl⟩
  show [(data.withField "_trace" (Json.obj
      [("traceId", hget (injectContextFromSpan (startSpan ambient ft fs) hs) "x-trace-id"),
       ("spanId", hget (injectContextFromSpan (startSpan ambient ft fs) hs) "x-span-id"),
       ("flags", hget (injectContextFromSpan (startSpan ambient ft fs) hs) "x-trace-flags")])).get
      "_trace"] = _
  rw [get_withField_self, inject_traceId, inject_spanId, inject_flags]

/-- The `_trace` object as published by the tracing producer. -/
def traceObj (t s flags : String) : Json :=
  Json.obj
    [("traceId", Json.str t), ("spanId", Json.str s), ("flags", Json.str flags)]

/-- A `user.created` wire payload carrying a `_trace` object. -/
def userCreatedPayload (uid email nm ca : String) (tr : Json) : Json :=
  Json.obj
    [("userId", Json.str uid), ("email", Json.str email), ("name", Json.str nm),
     ("createdAt", Json.str ca), ("_trace", tr)]

/-- Whatever the inbound `order.created` payload is, the `payment.completed`
emit produced by the payment-service consumer's handling of it carries no
`_trace` key in its value, and its `traceId` Kafka header is the fresh uuid
drawn by `processPayment` — because `processPayment` reads
`headers?.traceId` while the consumer supplies the context under
`x-trace-id`. -/
theorem paymentHop_fresh_trace (penv : PaymentEnv) (c1 c2 : String) (payload : Json) :
    ((paymentHop penv connectedState true payload c1 c2).1.produced.map
        (fun m2 => (m2.value.get "_trace", kafkaHeader m2.kafkaHeaders "traceId"))) =
      [(Json.undef, some penv.freshTraceId)] := by
  by_cases htr : (payload.get "_trace").truthy
  · have hex : extractTrace payload =
        ([("x-trace-id", (payload.get "_trace").get "traceId"),
          ("x-span-id", (payload.get "_trace").get "spanId"),
          ("x-trace-flags", Json.str (jsString
            (if ((payload.get "_trace").get "flags").truthy
             then (payload.get "_trace").get "flags" else Json.str "1")))],
         payload.delete "_trace") := by
      simp [extractTrace, htr]
    simp only [paymentHop]
    rw [hex]
    rfl
  · have hex : extractTrace payload = ([], payload) := by
      simp [extractTrace, htr]
    simp only [paymentHop]
    rw [hex]
    rfl

/-- Concrete fresh-identifier environment for the order-service hop. -/
def sampleOrderHopEnv : OrderHopEnv :=
  { freshConsumerTraceId := "11111111111111111111111111111111"
    freshConsumerSpanId := "1111111111111111"
    freshPublishTraceId := "22222222222222222222222222222222"
    freshPublishSpanId := "2222222222222222"
    freshLogTraceId := "log-trace-uuid", freshLogSpanId := "log-span-uuid"
    freshRequestId := "req-uuid", orderId := "order-1"
    createdAt := "2024-01-02T00:00:00.000Z" }

/-- Concrete fresh-identifier environment for the payment-service hop. -/
def samplePaymentEnv : PaymentEnv :=
  { freshTraceId := "payment-fresh-trace-uuid", freshSpanId := "payment-fresh-span-uuid"
    freshRequestId := "payment-req-uuid", paymentId := "pay-1", paymentSucceeds := true
    completedAt := "2024-01-03T00:00:00.000Z" }

/-- A concrete inbound `user.created` payload originating a traced chain. -/
def sampleUserPayload : Json :=
  userCreatedPayload "u1" "a@b.com" "A" "2024-01-01T00:00:00.000Z"
    (traceObj sampleTraceId sampleSpanId "1")

/-- C1 counterexample: running the concrete choreography chain from a
`user.created` event with trace id `sampleTraceId`, the `payment.completed`
event emitted downstream carries no `_trace` in its payload and its only
trace-id-bearing slot — the `traceId` Kafka header — holds the fresh uuid
drawn by `processPayment`, not the inbound trace id.  The trace id is
therefore not threaded unchanged through every downstream event. -/
theorem payment_trace_not_propagated_counterexample :
    ((orderHop sampleOrderHopEnv connectedState true sampleUserPayload).1.produced.map
      (fun m1 => ((paymentHop samplePaymentEnv connectedState true m1.value
          "33333333333333333333333333333333" "3333333333333333").1.produced.map
        (fun m2 => (m2.value.get "_trace", kafkaHeader m2.kafkaHeaders "traceId"))))) =
      [[(Json.undef, some "payment-fresh-trace-uuid")]] ∧
    (sampleUserPayload.get "_trace").get "traceId" = Json.str sampleTraceId ∧
    "payment-fresh-trace-uuid" ≠ sampleTraceId :=
  ⟨rfl, rfl, by decide⟩

/-- C1 (amended): on the `user.created` → `order.created` hop the emitted
event's `_trace.traceId` equals the inbound trace id and its `_trace.spanId`
is the freshly generated publish-span id (replacing the inbound span id);
on the `order.created` → `payment.completed` hop, however, the emitted event
carries no `_trace` and its `traceId` transport header is a freshly drawn
uuid rather than the inbound trace id. -/
theorem trace_propagation_per_hop (env : OrderHopEnv) (penv : PaymentEnv)
    (c1 c2 uid email nm ca t s : String)
    (ht : validTraceId (Json.str t) = true) (hsv : validSpanId (Json.str s) = true)
    (hspan : env.freshPublishSpanId ≠ s) (hfresh : penv.freshTraceId ≠ t) :
    ((orderHop env connectedState true
        (userCreatedPayload uid email nm ca (traceObj t s "1"))).1.produced.map
        (fun m1 => ((m1.value.get "_trace").get "traceId",
                    (m1.value.get "_trace").get "spanId"))) =
      [(Json.str t, Json.str env.freshPublishSpanId)] ∧
    env.freshPublishSpanId ≠ s ∧
    (∀ payload : Json, ((paymentHop penv connectedState true payload c1 c2).1.produced.map
        (fun m2 => (m2.value.get "_trace", kafkaHeader m2.kafkaHeaders "traceId"))) =
      [(Json.undef, some penv.freshTraceId)]) ∧
    penv.freshTraceId ≠ t := by
  refine ⟨?_, hspan, fun payload => paymentHop_fresh_trace penv c1 c2 payload, hfresh⟩
  have hex1 : (extractTrace (userCreatedPayload uid email nm ca (traceObj t s "1"))).1 =
      [("x-trace-id", Json.str t), ("x-span-id", Json.str s),
       ("x-trace-flags", Json.str "1")] := rfl
  have hex2 : (extractTrace (userCreatedPayload uid email nm ca (traceObj t s "1"))).2 =
      Json.obj [("userId", Json.str uid), ("email", Json.str email),
                ("name", Json.str nm), ("createdAt", Json.str ca)] := rfl
  have ht' := validTraceId_truthy _ ht
  have hs' := validSpanId_truthy _ hsv
  have hsp : startSpanFromHeaders
      [("x-trace-id", Json.str t), ("x-span-id", Json.str s), ("x-trace-flags", Json.str "1")]
      env.freshConsumerTraceId env.freshConsumerSpanId =
      { traceId := Json.str t, spanId := Json.str env.freshConsumerSpanId
        traceFlags := 1 } := by
    show (if ((Json.str t).truthy && (Json.str s).truthy) = true then
            if (validTraceId (Json.str t) && validSpanId (Json.str s)) = true then
              ({ traceId := Json.str t, spanId := Json.str env.freshConsumerSpanId
                 traceFlags := 1 } : SpanContext)
            else { traceId := Json.str env.freshConsumerTraceId
                   spanId := Json.str env.freshConsumerSpanId, traceFlags := 1 }
          else { traceId := Json.str env.freshConsumerTraceId
                 spanId := Json.str env.freshConsumerSpanId, traceFlags := 1 }) =
      { traceId := Json.str t, spanId := Json.str env.freshConsumerSpanId, traceFlags := 1 }
    rw [ht', hs', ht, hsv]
    simp
  simp only [orderHop]
  rw [hex1, hex2, hsp]
  rfl

theorem trace_propagation_per_hop_witness :
    ((orderHop sampleOrderHopEnv connectedState true
        (userCreatedPayload "u1" "a@b.com" "A" "2024-01-01T00:00:00.000Z"
          (traceObj sampleTraceId sampleSpanId "1"))).1.produced.map
        (fun m1 => ((m1.value.get "_trace").get "traceId",
                    (m1.value.get "_trace").get "spanId"))) =
      [(Json.str sampleTraceId, Json.str sampleOrderHopEnv.freshPublishSpanId)] ∧
    sampleOrderHopEnv.freshPublishSpanId ≠ sampleSpanId ∧
    (∀ payload : Json, ((paymentHop samplePaymentEnv connectedState true payload
        "33333333333333333333333333333333" "3333333333333333").1.produced.map
        (fun m2 => (m2.value.get "_trace", kafkaHeader m2.kafkaHeaders "traceId"))) =
      [(Json.undef, some samplePaymentEnv.freshTraceId)]) ∧
    samplePaymentEnv.freshTraceId ≠ sampleTraceId :=
  trace_propagation_per_hop sampleOrderHopEnv samplePaymentEnv
    "33333333333333333333333333333333" "3333333333333333" "u1" "a@b.com" "A"
    "2024-01-01T00:00:00.000Z" sampleTraceId sampleSpanId
    (by decide) (by decide) (by decide) (by decide)

/-- C10: the `totalAmount` of the emitted `order.created` event equals the
sum over the order's items of price times quantity; the welcome order
auto-created for a new user totals 0; and running the concrete chain, the
downstream `payment.completed` event carries `amount` 0 for that welcome
order. -/
theorem order_total_amount_and_welcome_zero (items : List OrderItem) (oid : String)
    (uid : Json) (ca : String) (ambient : Option SpanContext) (ft fs : String)
    (logHeaders : Headers) :
    ((ordersCreate connectedState true ambient ft fs oid uid items ca logHeaders).produced.map
        (fun m => m.value.get "totalAmount")) =
      [Json.num ((items.map (fun it => it.price * it.quantity)).sum)] ∧
    orderTotalAmount welcomeItems = 0 ∧
    ((orderHop sampleOrderHopEnv connectedState true sampleUserPayload).1.produced.map
      (fun m1 => ((paymentHop samplePaymentEnv connectedState true m1.value
          "33333333333333333333333333333333" "3333333333333333").1.produced.map
        (fun m2 => m2.value.get "amount")))) = [[Json.num 0]] := by
  refine ⟨?_, rfl, rfl⟩
  have hval : ((ordersCreate connectedState true ambient ft fs oid uid items ca
      logHeaders).produced.map (fun m => m.value.get "totalAmount")) =
      [Json.num (orderTotalAmount items)] := rfl
  rw [hval, orderTotalAmount_eq_sum]

end Choreo
